import Mathlib

/-!
Shallow embedding of `ghstar.py`, a command-line tool that stars GitHub
repositories. Network requests are modelled by oracle functions from the
request record to either a transport failure or an HTTP response; the
process environment is modelled by optional string values for the two
environment variables; interactive input is a single string line.
-/

namespace Ghstar

/-- `Repo = collections.namedtuple("Repo", ["full_name", "description", "stars"])`.
In direct mode `description` and `stars` are `None`; search results carry a
possibly-null description and an integer star count. -/
structure Repo where
  full_name : String
  description : Option String
  stars : Option Int
deriving DecidableEq, Repr

/-- The fixed message built in `AuthError.__init__`. -/
def authErrorMsg : String :=
  "Invalid credentials supplied.\nPlease set the environment variables GH_UNAME and GH_TOKEN to your GitHub username and access token."

/-- The three exception classes raised and caught by the program:
`AuthError`, `InvalidRepoError` (carrying the offending repo) and
`ConnectionError`. -/
inductive GhError where
  | authError
  | invalidRepoError (repo : Repo)
  | connectionError
deriving DecidableEq, Repr

/-- `str(error)` for each of the three exceptions, as set in their
constructors (`AuthError.__init__`, `InvalidRepoError.__init__`, and the
literal passed to `ConnectionError`). -/
def GhError.message : GhError → String
  | .authError => authErrorMsg
  | .invalidRepoError repo => repo.full_name ++ " is not a valid repo."
  | .connectionError => "Please check your internet connection."

/-- Python truthiness of an environment lookup result: `os.getenv` returns
`None` when unset, and the empty string is falsy. -/
def pyTruthy : Option String → Bool
  | none => false
  | some s => !(s == "")

/-- `get_credentials()`: reads `GH_UNAME` and `GH_TOKEN`; raises `AuthError`
unless both are truthy, otherwise returns the `(username, token)` pair. -/
def get_credentials (gh_uname gh_token : Option String) : Except GhError (String × String) :=
  if pyTruthy gh_uname && pyTruthy gh_token then
    .ok (gh_uname.getD "", gh_token.getD "")
  else
    .error .authError

/-- The `requests.get` call of `search_repo`: url, basic-auth pair, and the
`q` query parameter. -/
structure GetRequest where
  url : String
  auth : String × String
  q : String
deriving DecidableEq, Repr

/-- The `requests.put` call of `star_repo`: url, basic-auth pair, and the
`Content-Length` header value. -/
structure PutRequest where
  url : String
  auth : String × String
  contentLength : String
deriving DecidableEq, Repr

/-- Outcome of issuing a request: the transport layer raises
`requests.exceptions.ConnectionError`, or an HTTP response arrives. -/
inductive HttpResult (β : Type) where
  | connectionFailure
  | success (resp : β)

/-- One element of the `items` array of the search response body, restricted
to the three fields the program reads. -/
structure SearchItem where
  full_name : String
  description : Option String
  stargazers_count : Int
deriving DecidableEq, Repr

/-- The search response body: a JSON object with an `items` array. -/
structure SearchResponse where
  items : List SearchItem
deriving DecidableEq, Repr

/-- The GET request assembled in `search_repo`. -/
def searchRequest (query gh_user gh_token : String) : GetRequest :=
  { url := "https://api.github.com/search/repositories"
    auth := (gh_user, gh_token)
    q := query }

/-- The body of the `for repo_item in r.json()["items"]` loop: build a `Repo`
from the three fields of one item. -/
def itemToRepo (it : SearchItem) : Repo :=
  { full_name := it.full_name
    description := it.description
    stars := some it.stargazers_count }

/-- `search_repo(query, gh_user, gh_token)`. Returns the request it issued
together with either the mapped result list or the raised error. -/
def search_repo (query gh_user gh_token : String)
    (net : GetRequest → HttpResult SearchResponse) :
    GetRequest × Except GhError (List Repo) :=
  let req := searchRequest query gh_user gh_token
  match net req with
  | .connectionFailure => (req, .error .connectionError)
  | .success r => (req, .ok (r.items.map itemToRepo))

/-- Python `str(x)` where `x` is a string or `None`, as interpolated by
`str.format`. -/
def pyReprOptStr : Option String → String
  | none => "None"
  | some s => s

/-- Python `str(x)` where `x` is an integer or `None`, as interpolated by
`str.format`. -/
def pyReprOptInt : Option Int → String
  | none => "None"
  | some n => toString n

/-- One line printed by `select_repo`, following its format string with
`number = index + 1`. -/
def formatRepoLine (number : Nat) (repo : Repo) : String :=
  "[" ++ toString number ++ "] " ++ repo.full_name ++ " - " ++
    pyReprOptStr repo.description ++ " (" ++ pyReprOptInt repo.stars ++ " stars)"

/-- Value of a list of decimal digit characters. -/
def digitsVal (cs : List Char) : Nat :=
  cs.foldl (fun acc c => acc * 10 + (c.toNat - 48)) 0

/-- Parse a non-empty all-digit character list. -/
def parseDigits (cs : List Char) : Option Nat :=
  if cs ≠ [] && cs.all Char.isDigit then some (digitsVal cs) else none

/-- Strip leading and trailing whitespace, as Python `int()` does. -/
def pyStrip (cs : List Char) : List Char :=
  ((cs.dropWhile Char.isWhitespace).reverse.dropWhile Char.isWhitespace).reverse

/-- Python `int(s)`: optional surrounding whitespace, optional sign, decimal
digits; `none` models the `ValueError` raised on anything else. -/
def pyInt (s : String) : Option Int :=
  match pyStrip s.toList with
  | [] => none
  | c :: rest =>
    if c = '-' then (parseDigits rest).map (fun n => -(n : Int))
    else if c = '+' then (parseDigits rest).map (fun n => (n : Int))
    else (parseDigits (c :: rest)).map (fun n => (n : Int))

/-- Python list subscription `xs[i]` with an integer index: non-negative
indices address from the front, negative indices wrap from the end, and
anything out of range raises `IndexError` (`none`). -/
def pyIndex {α : Type} (xs : List α) (i : Int) : Option α :=
  if 0 ≤ i then xs[i.toNat]?
  else if 0 ≤ i + xs.length then xs[(i + xs.length).toNat]?
  else none

/-- The unhandled exceptions `select_repo` can raise: `ValueError` from
`int(...)` and `IndexError` from the subscription. -/
inductive Fatal where
  | valueError
  | indexError
deriving DecidableEq, Repr

/-- What `select_repo` writes: the lines printed with `print` and the prompt
passed to `input`. -/
structure SelectOutput where
  lines : List String
  prompt : String
deriving DecidableEq, Repr

/-- `select_repo(repos)` reading one line from stdin: prints a blank line,
the enumerated entries, a blank line; prompts; then evaluates
`repos[int(number) - 1]`. -/
def select_repo (repos : List Repo) (inputLine : String) :
    SelectOutput × Except Fatal Repo :=
  let lines := [""] ++ (repos.enum.map (fun p => formatRepoLine (p.1 + 1) p.2)) ++ [""]
  let prompt := "Select the repository [1-" ++ toString repos.length ++ "]: "
  match pyInt inputLine with
  | none => (⟨lines, prompt⟩, .error .valueError)
  | some n =>
    match pyIndex repos (n - 1) with
    | none => (⟨lines, prompt⟩, .error .indexError)
    | some repo => (⟨lines, prompt⟩, .ok repo)

/-- The PUT request assembled in `star_repo`. -/
def starRequest (repo : Repo) (gh_user gh_token : String) : PutRequest :=
  { url := "https://api.github.com/user/starred/" ++ repo.full_name
    auth := (gh_user, gh_token)
    contentLength := "0" }

/-- `star_repo(repo, gh_user, gh_token)`: issues the PUT, then raises
`AuthError` on 401, `InvalidRepoError` on 404, and falls through (success)
on every other status. Returns the request it issued with the outcome. -/
def star_repo (repo : Repo) (gh_user gh_token : String)
    (net : PutRequest → HttpResult Nat) : PutRequest × Except GhError Unit :=
  let req := starRequest repo gh_user gh_token
  match net req with
  | .connectionFailure => (req, .error .connectionError)
  | .success status =>
    if status = 401 then (req, .error .authError)
    else if status = 404 then (req, .error (.invalidRepoError repo))
    else (req, .ok ())

/-- Parsed command line: the positional `repo` argument and the
`-i` (`--interactive`) flag. -/
structure Args where
  repo : String
  interactive : Bool
deriving DecidableEq, Repr

/-- The two environment variables read by `get_credentials`. -/
structure Env where
  gh_uname : Option String
  gh_token : Option String
deriving DecidableEq, Repr

/-- A network call issued during a run. -/
inductive NetworkCall where
  | get (req : GetRequest)
  | put (req : PutRequest)
deriving DecidableEq, Repr

/-- Observable outcome of one run of `main()`: network calls in order,
stdout writes in order, the stderr line written by `exit(error)` if any,
the process exit code, and the unhandled exception if one propagated. -/
structure RunResult where
  calls : List NetworkCall
  stdout : List String
  stderr : Option String
  exitCode : Nat
  fatal : Option Fatal
deriving DecidableEq, Repr

/-- The tail of `main` from the `star_repo` call on: on a caught error,
`exit(error)` prints its message to stderr and exits 1; on success the
confirmation is printed and the process exits 0. -/
def starPhase (repo : Repo) (username token : String)
    (netPut : PutRequest → HttpResult Nat)
    (calls : List NetworkCall) (stdout : List String) : RunResult :=
  let req := (star_repo repo username token netPut).1
  match (star_repo repo username token netPut).2 with
  | .error e => ⟨calls ++ [.put req], stdout, some e.message, 1, none⟩
  | .ok _ =>
      ⟨calls ++ [.put req], stdout ++ ["Starred " ++ repo.full_name], none, 0, none⟩

/-- `main()` after argument parsing: resolve credentials, optionally search
and select, star, and map the outcome to process output and exit code.
`exit(error)` prints the message to stderr and exits with code 1; an
uncaught `ValueError`/`IndexError` from `select_repo` terminates with a
traceback (recorded in `fatal`) and exit code 1. -/
def main (args : Args) (env : Env)
    (netGet : GetRequest → HttpResult SearchResponse)
    (netPut : PutRequest → HttpResult Nat) (stdinLine : String) : RunResult :=
  match get_credentials env.gh_uname env.gh_token with
  | .error e => ⟨[], [], some e.message, 1, none⟩
  | .ok (username, token) =>
    if args.interactive then
      let greq := (search_repo args.repo username token netGet).1
      match (search_repo args.repo username token netGet).2 with
      | .error e => ⟨[.get greq], [], some e.message, 1, none⟩
      | .ok repos =>
        let selOut := (select_repo repos stdinLine).1
        let stdout0 := selOut.lines ++ [selOut.prompt]
        match (select_repo repos stdinLine).2 with
        | .error f => ⟨[.get greq], stdout0, none, 1, some f⟩
        | .ok repo => starPhase repo username token netPut [.get greq] stdout0
    else
      starPhase (Repo.mk args.repo none none) username token netPut [] []

/-! ### Helper lemmas about the Python list-indexing model -/

theorem pyIndex_eq_none {α : Type} (xs : List α) (i : Int)
    (h : (xs.length : Int) ≤ i ∨ i < -(xs.length : Int)) : pyIndex xs i = none := by
  unfold pyIndex
  rcases h with h | h
  · rw [if_pos (by omega)]
    exact List.getElem?_eq_none (by omega)
  · rw [if_neg (by omega), if_neg (by omega)]

theorem pyIndex_isSome {α : Type} (xs : List α) (i : Int)
    (h1 : -(xs.length : Int) ≤ i) (h2 : i < (xs.length : Int)) :
    ∃ r, pyIndex xs i = some r := by
  unfold pyIndex
  by_cases h : 0 ≤ i
  · rw [if_pos h]
    have hb : i.toNat < xs.length := by omega
    exact ⟨xs[i.toNat], List.getElem?_eq_getElem hb⟩
  · rw [if_neg h, if_pos (by omega)]
    have hb : (i + xs.length).toNat < xs.length := by omega
    exact ⟨xs[(i + xs.length).toNat], List.getElem?_eq_getElem hb⟩

theorem pyIndex_nonneg {α : Type} (xs : List α) (i : Int) (h : 0 ≤ i) :
    pyIndex xs i = xs[i.toNat]? := by
  unfold pyIndex
  rw [if_pos h]

theorem pyIndex_neg {α : Type} (xs : List α) (i : Int) (h : i < 0)
    (h2 : 0 ≤ i + xs.length) :
    pyIndex xs i = xs[(i + xs.length).toNat]? := by
  unfold pyIndex
  rw [if_neg (by omega), if_pos h2]

/-! ### Reduction lemmas for the embedded operations -/

theorem select_repo_fst (repos : List Repo) (line : String) :
    (select_repo repos line).1 =
      ⟨[""] ++ (repos.enum.map (fun p => formatRepoLine (p.1 + 1) p.2)) ++ [""],
       "Select the repository [1-" ++ toString repos.length ++ "]: "⟩ := by
  simp only [select_repo]
  split
  · rfl
  · split <;> rfl

theorem select_repo_snd_none (repos : List Repo) (line : String)
    (h : pyInt line = none) :
    (select_repo repos line).2 = .error .valueError := by
  simp only [select_repo, h]

theorem select_repo_snd (repos : List Repo) (line : String) (v : Int)
    (h : pyInt line = some v) :
    (select_repo repos line).2 =
      match pyIndex repos (v - 1) with
      | none => .error .indexError
      | some repo => .ok repo := by
  simp only [select_repo, h]
  cases hp : pyIndex repos (v - 1) <;> simp [hp]

theorem star_repo_fst (repo : Repo) (u t : String)
    (net : PutRequest → HttpResult Nat) :
    (star_repo repo u t net).1 = starRequest repo u t := by
  simp only [star_repo]
  split
  · rfl
  · split
    · rfl
    · split <;> rfl

theorem star_repo_snd_conn (repo : Repo) (u t : String)
    (net : PutRequest → HttpResult Nat)
    (h : net (starRequest repo u t) = .connectionFailure) :
    (star_repo repo u t net).2 = .error .connectionError := by
  simp only [star_repo, h]

theorem star_repo_snd (repo : Repo) (u t : String)
    (net : PutRequest → HttpResult Nat) (s : Nat)
    (h : net (starRequest repo u t) = .success s) :
    (star_repo repo u t net).2 =
      (if s = 401 then .error .authError
       else if s = 404 then .error (.invalidRepoError repo)
       else .ok ()) := by
  simp only [star_repo, h]
  split
  · rfl
  · split <;> rfl

theorem search_repo_fst (q u t : String)
    (net : GetRequest → HttpResult SearchResponse) :
    (search_repo q u t net).1 = searchRequest q u t := by
  simp only [search_repo]
  cases net (searchRequest q u t) <;> rfl

theorem search_repo_snd_conn (q u t : String)
    (net : GetRequest → HttpResult SearchResponse)
    (h : net (searchRequest q u t) = .connectionFailure) :
    (search_repo q u t net).2 = .error .connectionError := by
  simp only [search_repo, h]

theorem search_repo_snd_ok (q u t : String)
    (net : GetRequest → HttpResult SearchResponse) (resp : SearchResponse)
    (h : net (searchRequest q u t) = .success resp) :
    (search_repo q u t net).2 = .ok (resp.items.map itemToRepo) := by
  simp only [search_repo, h]

theorem starPhase_ok (repo : Repo) (u t : String)
    (netPut : PutRequest → HttpResult Nat)
    (calls : List NetworkCall) (stdout : List String)
    (h : (star_repo repo u t netPut).2 = .ok ()) :
    starPhase repo u t netPut calls stdout =
      ⟨calls ++ [.put (starRequest repo u t)],
       stdout ++ ["Starred " ++ repo.full_name], none, 0, none⟩ := by
  simp only [starPhase, h, star_repo_fst]

theorem starPhase_error (repo : Repo) (u t : String)
    (netPut : PutRequest → HttpResult Nat)
    (calls : List NetworkCall) (stdout : List String) (e : GhError)
    (h : (star_repo repo u t netPut).2 = .error e) :
    starPhase repo u t netPut calls stdout =
      ⟨calls ++ [.put (starRequest repo u t)], stdout, some e.message, 1, none⟩ := by
  simp only [starPhase, h, star_repo_fst]

theorem main_cred_error (args : Args) (env : Env)
    (netGet : GetRequest → HttpResult SearchResponse)
    (netPut : PutRequest → HttpResult Nat) (stdin : String) (e : GhError)
    (h : get_credentials env.gh_uname env.gh_token = .error e) :
    main args env netGet netPut stdin = ⟨[], [], some e.message, 1, none⟩ := by
  simp only [main, h]

theorem main_direct (env : Env)
    (netGet : GetRequest → HttpResult SearchResponse)
    (netPut : PutRequest → HttpResult Nat) (stdin name u t : String)
    (h : get_credentials env.gh_uname env.gh_token = .ok (u, t)) :
    main ⟨name, false⟩ env netGet netPut stdin =
      starPhase (Repo.mk name none none) u t netPut [] [] := by
  simp only [main, h]
  rfl

theorem main_interactive_search_error (env : Env)
    (netGet : GetRequest → HttpResult SearchResponse)
    (netPut : PutRequest → HttpResult Nat) (stdin name u t : String) (e : GhError)
    (hc : get_credentials env.gh_uname env.gh_token = .ok (u, t))
    (hs : (search_repo name u t netGet).2 = .error e) :
    main ⟨name, true⟩ env netGet netPut stdin =
      ⟨[.get (searchRequest name u t)], [], some e.message, 1, none⟩ := by
  simp only [main, hc, hs, search_repo_fst]
  rfl

theorem main_interactive_selected (env : Env)
    (netGet : GetRequest → HttpResult SearchResponse)
    (netPut : PutRequest → HttpResult Nat)
    (stdin name u t : String) (repos : List Repo) (repo : Repo)
    (hc : get_credentials env.gh_uname env.gh_token = .ok (u, t))
    (hs : (search_repo name u t netGet).2 = .ok repos)
    (hsel : (select_repo repos stdin).2 = .ok repo) :
    main ⟨name, true⟩ env netGet netPut stdin =
      starPhase repo u t netPut [.get (searchRequest name u t)]
        ((select_repo repos stdin).1.lines ++ [(select_repo repos stdin).1.prompt]) := by
  simp only [main, hc, hs, hsel, search_repo_fst]
  rfl

/-! ### Claim theorems -/

/-- C1: for every star request, `star_repo` interprets the response status
code as follows: 204 is success with no error; 401 raises `AuthError`, the
very error value (hence message and shape) that credential resolution
raises; 404 raises `InvalidRepoError` whose message names the repository's
full name as not a valid repo; every other status falls through as
success. -/
theorem star_repo_status_interpretation (repo : Repo) (u t : String) (s : Nat) :
    (star_repo repo u t (fun _ => .success s)).2 =
      (if s = 401 then .error .authError
       else if s = 404 then .error (.invalidRepoError repo)
       else .ok ())
    ∧ get_credentials none none = .error .authError
    ∧ GhError.authError.message = authErrorMsg
    ∧ (GhError.invalidRepoError repo).message = repo.full_name ++ " is not a valid repo." := by
  refine ⟨?_, rfl, rfl, rfl⟩
  by_cases h1 : s = 401 <;> by_cases h2 : s = 404 <;> simp [star_repo, h1, h2]

/-- C2: whenever either environment value is missing (`None`) or the empty
string, `get_credentials` raises `AuthError`, whose fixed message names both
`GH_UNAME` and `GH_TOKEN`; whenever both are present and non-empty it
returns the `(username, token)` pair read from them. -/
theorem get_credentials_contract (u t : Option String) :
    ((u = none ∨ u = some "" ∨ t = none ∨ t = some "") →
      get_credentials u t = .error .authError
      ∧ GhError.authError.message = authErrorMsg
      ∧ ∃ a b c, authErrorMsg = a ++ "GH_UNAME" ++ b ++ "GH_TOKEN" ++ c)
    ∧ (∀ su st, u = some su → t = some st → su ≠ "" → st ≠ "" →
        get_credentials u t = .ok (su, st)) := by
  constructor
  · intro h
    refine ⟨?_, rfl,
      "Invalid credentials supplied.\nPlease set the environment variables ",
      " and ", " to your GitHub username and access token.", rfl⟩
    rcases h with rfl | rfl | rfl | rfl <;>
      simp [get_credentials, pyTruthy]
  · rintro su st rfl rfl hsu hst
    simp [get_credentials, pyTruthy, hsu, hst]

/-- C2 witness: missing username yields `AuthError`; both credentials
present and non-empty yield the pair. -/
theorem get_credentials_contract_witness :
    get_credentials none (some "tok") = .error .authError
    ∧ get_credentials (some "user") (some "tok") = .ok ("user", "tok") :=
  ⟨((get_credentials_contract none (some "tok")).1 (Or.inl rfl)).1,
   (get_credentials_contract (some "user") (some "tok")).2 "user" "tok" rfl rfl
     (by decide) (by decide)⟩

/-- C5: for every search response carrying an `items` array, `search_repo`
returns the list mapping each item to a `Repo` of its `full_name`,
`description` and `stargazers_count`, preserving order (position by
position); in particular one item `(a/b, d, 5)` maps to exactly that one
record. -/
theorem search_repo_maps_items (q u t : String) (items : List SearchItem) :
    (∃ repos, (search_repo q u t (fun _ => .success ⟨items⟩)).2 = .ok repos
      ∧ repos.length = items.length
      ∧ ∀ i : Nat, repos[i]? = (items[i]?).map (fun it =>
          Repo.mk it.full_name it.description (some it.stargazers_count)))
    ∧ (search_repo q u t (fun _ => .success ⟨[⟨"a/b", some "d", 5⟩]⟩)).2
        = .ok [⟨"a/b", some "d", some 5⟩] := by
  refine ⟨⟨items.map itemToRepo, rfl, List.length_map .., fun i => ?_⟩, rfl⟩
  rw [List.getElem?_map]
  cases items[i]? <;> rfl

/-- C7: transport failure on either the search or the star request raises
`ConnectionError` with the fixed connectivity message, while an HTTP
response of any status — on either client — never produces
`ConnectionError`. -/
theorem transport_failure_yields_connection_error (q u t : String) (repo : Repo) :
    (search_repo q u t (fun _ => .connectionFailure)).2 = .error .connectionError
    ∧ (star_repo repo u t (fun _ => .connectionFailure)).2 = .error .connectionError
    ∧ GhError.connectionError.message = "Please check your internet connection."
    ∧ (∀ resp : SearchResponse,
        (search_repo q u t (fun _ => .success resp)).2 ≠ .error .connectionError)
    ∧ (∀ s : Nat, (star_repo repo u t (fun _ => .success s)).2 ≠ .error .connectionError) := by
  refine ⟨rfl, rfl, rfl, fun resp h => by simp [search_repo] at h, fun s => ?_⟩
  by_cases h1 : s = 401 <;> by_cases h2 : s = 404 <;> simp [star_repo, h1, h2]

/-- C8: the star request depends only on the repository's full name and the
credentials: a `Repo` built directly from a bare name (direct mode, optional
fields absent) and any `Repo` with the same full name — in particular one
obtained from a search item — produce the identical PUT request, whose url
is the star endpoint path addressed by the full name. -/
theorem star_request_independent_of_source (name : String) (d : Option String)
    (st : Option Int) (u t : String) (it : SearchItem) :
    starRequest (Repo.mk name none none) u t = starRequest (Repo.mk name d st) u t
    ∧ (starRequest (Repo.mk name d st) u t).url
        = "https://api.github.com/user/starred/" ++ name
    ∧ (it.full_name = name →
        starRequest (itemToRepo it) u t = starRequest (Repo.mk name none none) u t) := by
  refine ⟨rfl, rfl, fun h => ?_⟩
  simp [starRequest, itemToRepo, h]

/-- C8 witness: a direct-mode record and a search-derived record with full
name `a/b` produce the same PUT request. -/
theorem star_request_independent_of_source_witness :
    starRequest (Repo.mk "a/b" none none) "u" "t"
      = starRequest (Repo.mk "a/b" (some "d") (some 5)) "u" "t"
    ∧ starRequest (itemToRepo ⟨"a/b", some "d", 5⟩) "u" "t"
      = starRequest (Repo.mk "a/b" none none) "u" "t" :=
  ⟨(star_request_independent_of_source "a/b" (some "d") (some 5) "u" "t"
      ⟨"a/b", some "d", 5⟩).1,
   (star_request_independent_of_source "a/b" (some "d") (some 5) "u" "t"
      ⟨"a/b", some "d", 5⟩).2.2 rfl⟩

/-- A concrete search-derived repository record used as test data. -/
def repoA : Repo := ⟨"a/b", some "d", some 5⟩

/-- A second concrete repository record used as test data. -/
def repoB : Repo := ⟨"c/d", none, some 7⟩

/-- C3 counterexample: for the single-element list (N = 1) the boundary
input "0" is outside [1, N], yet `select_repo` returns the repository
instead of propagating a fatal error. -/
theorem select_repo_input_zero_selects :
    (select_repo [repoA] "0").2 = .ok repoA := by rfl

/-- C3 (amended): for every non-empty list of N repositories, a non-numeric
input propagates a fatal `ValueError`, and an input whose integer value v
lies above N or at or below -N — in particular the boundary N + 1 —
propagates a fatal `IndexError`; but inputs between -(N-1) and 0 (including
the boundary 0) do not fail: Python's negative indexing makes them select a
repository. -/
theorem select_repo_out_of_range_fatal (repos : List Repo) (line : String) (v : Int)
    (_hne : repos ≠ []) :
    (pyInt line = none → (select_repo repos line).2 = .error .valueError)
    ∧ (pyInt line = some v →
        ((repos.length : Int) < v ∨ v ≤ -(repos.length : Int)) →
        (select_repo repos line).2 = .error .indexError) := by
  constructor
  · intro h
    exact select_repo_snd_none repos line h
  · intro h hout
    rw [select_repo_snd repos line v h,
      pyIndex_eq_none repos (v - 1) (by omega)]

/-- C3 witness: with one repository, the non-numeric input "abc" raises
ValueError and the boundary input N + 1 = 2 raises IndexError. -/
theorem select_repo_out_of_range_fatal_witness :
    (select_repo [repoA] "abc").2 = .error .valueError
    ∧ (select_repo [repoA] "2").2 = .error .indexError :=
  ⟨(select_repo_out_of_range_fatal [repoA] "abc" 0 (by decide)).1 (by decide),
   (select_repo_out_of_range_fatal [repoA] "2" 2 (by decide)).2 (by decide) (by decide)⟩

/-- C10 counterexample: for the single-element list (N = 1) the input "-1"
has k = 1 inside the claimed wrap-around range 1 ≤ k ≤ N + 1 = 2, yet
`select_repo` raises IndexError instead of selecting a repository. -/
theorem select_repo_neg_input_fatal_on_singleton :
    (select_repo [repoA] "-1").2 = .error .indexError := by rfl

/-- C10 (amended): for every non-empty list of N repositories, input "0"
selects the last (Nth) repository; an input of value -k with 1 ≤ k ≤ N - 1
selects the repository at 0-based position N - 1 - k by wrap-around from
the end; and every input whose integer value minus 1 lies in Python's
accepted index range [-N, N-1] selects a repository — only values outside
that range (and non-numeric input) are fatal. -/
theorem select_repo_negative_indexing (repos : List Repo) (k : Nat) (line : String)
    (hne : repos ≠ []) (hk1 : 1 ≤ k) (hk2 : k ≤ repos.length - 1)
    (hline : pyInt line = some (-(k : Int))) :
    (∃ r, repos[repos.length - 1]? = some r ∧ (select_repo repos "0").2 = .ok r)
    ∧ (∃ r, repos[repos.length - 1 - k]? = some r
        ∧ (select_repo repos line).2 = .ok r)
    ∧ (∀ w : Int, ∀ l : String, pyInt l = some w →
        -(repos.length : Int) ≤ w - 1 → w - 1 < (repos.length : Int) →
        ∃ r, (select_repo repos l).2 = .ok r) := by
  have hlen : 0 < repos.length := List.length_pos.mpr hne
  have h0 : pyInt "0" = some 0 := by decide
  have hb : repos.length - 1 < repos.length := by omega
  have hb2 : repos.length - 1 - k < repos.length := by omega
  refine ⟨⟨repos[repos.length - 1], List.getElem?_eq_getElem hb, ?_⟩,
    ⟨repos[repos.length - 1 - k], List.getElem?_eq_getElem hb2, ?_⟩, ?_⟩
  · rw [select_repo_snd repos "0" 0 h0]
    have hidx : pyIndex repos (0 - 1) = repos[repos.length - 1]? := by
      rw [pyIndex_neg repos (0 - 1) (by omega) (by omega)]
      congr 1
      omega
    rw [hidx, List.getElem?_eq_getElem hb]
  · rw [select_repo_snd repos line (-(k : Int)) hline]
    have hidx : pyIndex repos (-(k : Int) - 1) = repos[repos.length - 1 - k]? := by
      rw [pyIndex_neg repos (-(k : Int) - 1) (by omega) (by omega)]
      congr 1
      omega
    rw [hidx, List.getElem?_eq_getElem hb2]
  · intro w l hl hlo hhi
    obtain ⟨r, hr⟩ := pyIndex_isSome repos (w - 1) hlo hhi
    refine ⟨r, ?_⟩
    rw [select_repo_snd repos l w hl, hr]

/-- C10 witness: with two repositories, input "0" selects the second (last)
one and input "-1" selects the first one by wrap-around. -/
theorem select_repo_negative_indexing_witness :
    (∃ r, ([repoA, repoB] : List Repo)[1]? = some r
      ∧ (select_repo [repoA, repoB] "0").2 = .ok r)
    ∧ (∃ r, ([repoA, repoB] : List Repo)[0]? = some r
      ∧ (select_repo [repoA, repoB] "-1").2 = .ok r) :=
  ⟨(select_repo_negative_indexing [repoA, repoB] 1 "-1" (by decide) (by decide)
      (by decide) (by decide)).1,
   (select_repo_negative_indexing [repoA, repoB] 1 "-1" (by decide) (by decide)
      (by decide) (by decide)).2.1⟩

/-- C6: for every non-empty list of N repositories, `select_repo` prints
each entry as `[<1-based index>] <full_name> - <description> (<stars>
stars)`, one per line in input order, surrounded by blank lines; prompts
once for a number in [1, N]; and for every input whose integer value k
satisfies 1 ≤ k ≤ N it returns the repository at 1-based position k. -/
theorem select_repo_renders_and_selects (repos : List Repo) (line : String) (k : Nat)
    (hne : repos ≠ []) (hk1 : 1 ≤ k) (hk2 : k ≤ repos.length)
    (hline : pyInt line = some (k : Int)) :
    (select_repo repos line).1.lines.length = repos.length + 2
    ∧ (select_repo repos line).1.lines[0]? = some ""
    ∧ (select_repo repos line).1.lines[repos.length + 1]? = some ""
    ∧ (∀ i : Nat, ∀ r : Repo, repos[i]? = some r →
        (select_repo repos line).1.lines[i + 1]?
          = some ("[" ++ toString (i + 1) ++ "] " ++ r.full_name ++ " - "
              ++ pyReprOptStr r.description ++ " ("
              ++ pyReprOptInt r.stars ++ " stars)"))
    ∧ (select_repo repos line).1.prompt
        = "Select the repository [1-" ++ toString repos.length ++ "]: "
    ∧ (∃ r, repos[k - 1]? = some r ∧ (select_repo repos line).2 = .ok r) := by
  have hlen : 0 < repos.length := List.length_pos.mpr hne
  have hfst := select_repo_fst repos line
  have hlines : (select_repo repos line).1.lines
      = "" :: ((repos.enum.map (fun p => formatRepoLine (p.1 + 1) p.2)) ++ [""]) := by
    rw [hfst]
    rfl
  have hmaplen : (repos.enum.map (fun p => formatRepoLine (p.1 + 1) p.2)).length
      = repos.length := by
    rw [List.length_map, List.enum_length]
  refine ⟨?_, ?_, ?_, ?_, ?_, ?_⟩
  · rw [hlines]
    simp only [List.length_cons, List.length_append, List.length_map,
      List.enum_length, List.length_nil]
  · rw [hlines, List.getElem?_cons_zero]
  · rw [hlines, List.getElem?_cons_succ, List.getElem?_append, if_neg (by omega),
      hmaplen]
    simp
  · intro i r hir
    have hi : i < repos.length := by
      by_contra hcon
      rw [List.getElem?_eq_none (by omega)] at hir
      exact Option.noConfusion hir
    rw [hlines, List.getElem?_cons_succ, List.getElem?_append,
      if_pos (by rw [hmaplen]; omega), List.getElem?_map, List.getElem?_enum, hir]
    rfl
  · rw [hfst]
  · have hb : k - 1 < repos.length := by omega
    refine ⟨repos[k - 1], List.getElem?_eq_getElem hb, ?_⟩
    rw [select_repo_snd repos line (k : Int) hline]
    have hidx : pyIndex repos ((k : Int) - 1) = repos[k - 1]? := by
      rw [pyIndex_nonneg repos ((k : Int) - 1) (by omega)]
      congr 1
      omega
    rw [hidx, List.getElem?_eq_getElem hb]

/-- C6 witness: the single-element list with input "1" yields its one
element, rendered as `[1] a/b - d (5 stars)`. -/
theorem select_repo_renders_and_selects_witness :
    (select_repo [repoA] "1").1.lines[0 + 1]?
      = some ("[" ++ toString (0 + 1) ++ "] " ++ repoA.full_name ++ " - "
          ++ pyReprOptStr repoA.description ++ " ("
          ++ pyReprOptInt repoA.stars ++ " stars)")
    ∧ (∃ r, ([repoA] : List Repo)[1 - 1]? = some r
        ∧ (select_repo [repoA] "1").2 = .ok r) :=
  ⟨(select_repo_renders_and_selects [repoA] "1" 1 (by decide) (by decide)
      (by decide) (by decide)).2.2.2.1 0 repoA (by decide),
   (select_repo_renders_and_selects [repoA] "1" 1 (by decide) (by decide)
      (by decide) (by decide)).2.2.2.2.2⟩

/-- C4: when credentials resolve, a star response of 204 makes the driver
print the confirmation line naming the starred repository's full name and
exit 0, in direct mode and in interactive mode alike; any taxonomy error
raised by search or by starring makes the driver print that error's message
to stderr and exit 1, issuing no further network call and printing no
confirmation; a credential-resolution error does the same before any other
step, in either mode. -/
theorem driver_outcome (env : Env) (netGet : GetRequest → HttpResult SearchResponse)
    (netPut : PutRequest → HttpResult Nat) (stdin name u t : String) :
    (get_credentials env.gh_uname env.gh_token = .ok (u, t) →
      (netPut (starRequest (Repo.mk name none none) u t) = .success 204 →
        main ⟨name, false⟩ env netGet netPut stdin =
          ⟨[.put (starRequest (Repo.mk name none none) u t)],
           ["Starred " ++ name], none, 0, none⟩)
      ∧ (∀ e, (star_repo (Repo.mk name none none) u t netPut).2 = .error e →
          main ⟨name, false⟩ env netGet netPut stdin =
            ⟨[.put (starRequest (Repo.mk name none none) u t)], [],
             some e.message, 1, none⟩)
      ∧ (∀ e, (search_repo name u t netGet).2 = .error e →
          main ⟨name, true⟩ env netGet netPut stdin =
            ⟨[.get (searchRequest name u t)], [], some e.message, 1, none⟩)
      ∧ (∀ repos repo, (search_repo name u t netGet).2 = .ok repos →
          (select_repo repos stdin).2 = .ok repo →
          netPut (starRequest repo u t) = .success 204 →
          main ⟨name, true⟩ env netGet netPut stdin =
            ⟨[.get (searchRequest name u t), .put (starRequest repo u t)],
             ((select_repo repos stdin).1.lines
               ++ [(select_repo repos stdin).1.prompt])
               ++ ["Starred " ++ repo.full_name], none, 0, none⟩)
      ∧ (∀ repos repo e, (search_repo name u t netGet).2 = .ok repos →
          (select_repo repos stdin).2 = .ok repo →
          (star_repo repo u t netPut).2 = .error e →
          main ⟨name, true⟩ env netGet netPut stdin =
            ⟨[.get (searchRequest name u t), .put (starRequest repo u t)],
             (select_repo repos stdin).1.lines
               ++ [(select_repo repos stdin).1.prompt],
             some e.message, 1, none⟩))
    ∧ (∀ e, get_credentials env.gh_uname env.gh_token = .error e →
        main ⟨name, false⟩ env netGet netPut stdin = ⟨[], [], some e.message, 1, none⟩
        ∧ main ⟨name, true⟩ env netGet netPut stdin = ⟨[], [], some e.message, 1, none⟩) := by
  constructor
  · intro hc
    refine ⟨?_, ?_, ?_, ?_, ?_⟩
    · intro hput
      rw [main_direct env netGet netPut stdin name u t hc,
        starPhase_ok _ _ _ _ _ _
          (by rw [star_repo_snd (Repo.mk name none none) u t netPut 204 hput]; rfl)]
      rfl
    · intro e hse
      rw [main_direct env netGet netPut stdin name u t hc,
        starPhase_error _ _ _ _ _ _ e hse]
      rfl
    · intro e hse
      exact main_interactive_search_error env netGet netPut stdin name u t e hc hse
    · intro repos repo hs hsel hput
      rw [main_interactive_selected env netGet netPut stdin name u t repos repo hc hs hsel,
        starPhase_ok _ _ _ _ _ _
          (by rw [star_repo_snd repo u t netPut 204 hput]; rfl)]
      rfl
    · intro repos repo e hs hsel hse
      rw [main_interactive_selected env netGet netPut stdin name u t repos repo hc hs hsel,
        starPhase_error _ _ _ _ _ _ e hse]
      rfl
  · intro e he
    exact ⟨main_cred_error ⟨name, false⟩ env netGet netPut stdin e he,
      main_cred_error ⟨name, true⟩ env netGet netPut stdin e he⟩

/-- C4 witness: with both credentials set and a 204 response, direct mode
prints the confirmation and exits 0; with the username unset, the driver
prints the auth error message and exits 1 with no network call. -/
theorem driver_outcome_witness :
    main ⟨"a/b", false⟩ ⟨some "u", some "t"⟩ (fun _ => .connectionFailure)
        (fun _ => .success 204) "" =
      ⟨[.put (starRequest (Repo.mk "a/b" none none) "u" "t")],
       ["Starred " ++ "a/b"], none, 0, none⟩
    ∧ main ⟨"a/b", false⟩ ⟨none, some "t"⟩ (fun _ => .connectionFailure)
        (fun _ => .success 204) "" =
      ⟨[], [], some GhError.authError.message, 1, none⟩ :=
  ⟨((driver_outcome ⟨some "u", some "t"⟩ (fun _ => .connectionFailure)
      (fun _ => .success 204) "" "a/b" "u" "t").1 rfl).1 rfl,
   ((driver_outcome ⟨none, some "t"⟩ (fun _ => .connectionFailure)
      (fun _ => .success 204) "" "a/b" "u" "t").2 .authError rfl).1⟩

/-- C9: whenever either credential value is missing or empty, the run fails
with the `AuthError` message before any network activity: the list of
issued network calls is empty, so neither the search request nor the star
request is ever sent, for every mode, network behavior and input. -/
theorem creds_fail_no_network_call (args : Args) (env : Env)
    (netGet : GetRequest → HttpResult SearchResponse)
    (netPut : PutRequest → HttpResult Nat) (stdin : String)
    (h : env.gh_uname = none ∨ env.gh_uname = some ""
       ∨ env.gh_token = none ∨ env.gh_token = some "") :
    (main args env netGet netPut stdin).calls = []
    ∧ (main args env netGet netPut stdin).stderr = some authErrorMsg
    ∧ (main args env netGet netPut stdin).exitCode = 1 := by
  have hc : get_credentials env.gh_uname env.gh_token = .error .authError := by
    rcases h with h | h | h | h <;> rw [h] <;> simp [get_credentials, pyTruthy]
  rw [main_cred_error args env netGet netPut stdin .authError hc]
  exact ⟨rfl, rfl, rfl⟩

/-- C9 witness: with an empty username the run makes no network call,
reports the auth error message and exits 1. -/
theorem creds_fail_no_network_call_witness :
    (main ⟨"a/b", true⟩ ⟨some "", some "tok"⟩ (fun _ => .connectionFailure)
        (fun _ => .success 204) "1").calls = []
    ∧ (main ⟨"a/b", true⟩ ⟨some "", some "tok"⟩ (fun _ => .connectionFailure)
        (fun _ => .success 204) "1").stderr = some authErrorMsg
    ∧ (main ⟨"a/b", true⟩ ⟨some "", some "tok"⟩ (fun _ => .connectionFailure)
        (fun _ => .success 204) "1").exitCode = 1 :=
  creds_fail_no_network_call ⟨"a/b", true⟩ ⟨some "", some "tok"⟩
    (fun _ => .connectionFailure) (fun _ => .success 204) "1"
    (Or.inr (Or.inl rfl))

end Ghstar
